import Mathlib

/-!
Verification of the alias registry in `monai/utils/aliases.py`.

The Python module keeps a process-wide dictionary `GlobalAliases` mapping
string names to objects, populated by the `alias(*names)` decorator, and a
resolver `resolve_name(name)` that tries, in order: a direct registry lookup,
a qualified-name import (splitting at the last `.`), and a heuristic scan of
`sys.modules` for a module exposing a truthy attribute of that name.

The embedding below models Python objects as `Val` (with a dedicated `none`
constructor, since `is None` checks drive the control flow, and a truthiness
flag, since the scan filters on truthiness), modules as a name plus an
attribute dictionary, and the ambient interpreter state (`sys.modules`,
`importlib.import_module`, `inspect.getmodule`) as a structure of functions.
The mutable global dictionary is passed explicitly as a `Registry` value;
`alias` returns the updated registry together with the decorator's return
value.  Exceptions become constructors of an `Outcome` type; the concrete
exception class and message each outcome raises (every resolution failure is
a `ValueError` in the source) are recovered by `Outcome.raised`.
-/

/-- A Python value: `none` is the `None` singleton; any other object carries
an identity (so reference identity is equality of `Val`) and its truthiness. -/
inductive Val where
  | none
  | obj (id : Nat) (truthy : Bool)
deriving DecidableEq

/-- Python truthiness: `None` is falsy, other objects carry their own flag. -/
def Val.isTruthy : Val → Bool
  | .none => false
  | .obj _ t => t

/-- A loaded Python module: its `__name__` and attribute dictionary. -/
structure PyModule where
  name : String
  attrs : List (String × Val)
deriving DecidableEq

/-- `getattr(m, n)` without a default: `Option.none` models `AttributeError`. -/
def PyModule.getattr? (m : PyModule) (n : String) : Option Val :=
  m.attrs.lookup n

/-- `getattr(m, n, None)`: the attribute's value, or Python `None` if absent. -/
def PyModule.getattrD (m : PyModule) (n : String) : Val :=
  (m.attrs.lookup n).getD Val.none

/-- The ambient interpreter state `resolve_name` consults: the values of
`sys.modules`, `importlib.import_module` (`Option.none` models
`ModuleNotFoundError`), and `inspect.getmodule` (which may return `None`). -/
structure Env where
  sysModules : List PyModule
  importModule : String → Option PyModule
  getmodule : Val → Option PyModule

/-- The `GlobalAliases` dictionary: `Option.none` is absence of the key,
`some Val.none` is a key registered to Python `None` (the two differ for
`name in GlobalAliases`). -/
abbrev Registry := String → Option Val

/-- The initial, empty `GlobalAliases` dictionary. -/
def Registry.empty : Registry := fun _ => Option.none

/-- `GlobalAliases[n] = v`. -/
def Registry.set (r : Registry) (n : String) (v : Val) : Registry :=
  fun k => if k = n then some v else r k

/-- The decorator `alias(*names)` applied to `obj`: stores `obj` in the
registry under each name in turn and returns `obj` unchanged. -/
def «alias» (names : List String) (obj : Val) (reg : Registry) : Registry × Val :=
  (names.foldl (fun r n => r.set n obj) reg, obj)

/-- A sequence of `alias` applications, in order, threading the registry. -/
def aliasMany (rs : List (List String × Val)) (reg : Registry) : Registry :=
  rs.foldl (fun r p => («alias» p.1 p.2 r).1) reg

/-- The value the most recent registration in `rs` gave to `k`, if any. -/
def lastRegistered (rs : List (List String × Val)) (k : String) : Option Val :=
  match rs with
  | [] => Option.none
  | p :: rest =>
    match lastRegistered rest k with
    | some v => some v
    | Option.none => if k ∈ p.1 then some p.2 else Option.none

/-- `name.rsplit(".", 1)` on the character list: splits at the *last* `.`,
returning `(module part, member part)`; `Option.none` when no `.` occurs
(so this also decides `"." in name`). -/
def rsplitDotList : List Char → Option (List Char × List Char)
  | [] => Option.none
  | c :: cs =>
    match rsplitDotList cs with
    | some (m, d) => some (c :: m, d)
    | Option.none => if c = '.' then some ([], cs) else Option.none

/-- Every way `resolve_name` can finish: a returned value, one of the four
`ValueError` raises, the failed `assert`, the `mods[0]` access on an empty
list, or a bare `getattr` on a module lacking the attribute. -/
inductive Outcome where
  | ok (v : Val)
  | moduleNotFound (modname : String)
  | missingMember (modname declname : String)
  | ambiguous (modnames : List String) (name : String)
  | notFound (name : String)
  | assertionError
  | indexError
  | attributeError
deriving DecidableEq

/-- The candidate list of the heuristic scan:
`[m for m in list(sys.modules.values()) if getattr(m, name, None)]`. -/
def candidateMods (env : Env) (name : String) : List PyModule :=
  env.sysModules.filter (fun m => (m.getattrD name).isTruthy)

/-- The deduplicated defining modules of the candidates' attribute values:
`{inspect.getmodule(getattr(m, name)) for m in mods}` with `None` removed
(the source builds the set first and removes `None` second; dropping the
`None`s before deduplicating yields the same collection). -/
def definingMods (env : Env) (name : String) (mods : List PyModule) : List PyModule :=
  ((mods.map (fun m => env.getmodule (m.getattrD name))).filterMap id).dedup

/-- `obj = getattr(mods[0], name)` followed by
`if obj is None: raise ValueError("No module with member %r found" % name)`:
an empty list gives `IndexError`, a module without the attribute gives
`AttributeError`. -/
def pickObj (mods : List PyModule) (name : String) : Outcome :=
  match mods with
  | [] => Outcome.indexError
  | m :: _ =>
    match m.getattr? name with
    | Option.none => Outcome.attributeError
    | some obj => if obj = Val.none then Outcome.notFound name else Outcome.ok obj

/-- The simple-name branch of `resolve_name` (entered when the registry missed
and `name` has no dot): scan `sys.modules` for truthy attributes, deduplicate
by defining module when several candidates match, raise the ambiguity error
when more than one defining module remains. -/
def scanSimple (env : Env) (name : String) : Outcome :=
  let mods := candidateMods env name
  if 0 < mods.length then
    if 1 < mods.length then
      let foundmods := definingMods env name mods
      if 1 < foundmods.length then
        Outcome.ambiguous (foundmods.map PyModule.name) name
      else pickObj foundmods name
    else pickObj mods name
  else Outcome.notFound name

/-- `resolve_name(name)` against registry `reg` and interpreter state `env`:
registry lookup (with the source's
`assert name not in GlobalAliases or obj is not None`), then the
qualified-name branch when `name` contains a dot, then the heuristic scan. -/
def resolve_name (env : Env) (reg : Registry) (name : String) : Outcome :=
  let obj := (reg name).getD Val.none
  if (reg name).isSome ∧ obj = Val.none then
    Outcome.assertionError
  else if obj = Val.none then
    match rsplitDotList name.data with
    | some (modchars, declchars) =>
      let modname := String.mk modchars
      let declname := String.mk declchars
      match env.importModule modname with
      | Option.none => Outcome.moduleNotFound modname
      | some mod =>
        let o := mod.getattrD declname
        if o = Val.none then Outcome.missingMember modname declname
        else Outcome.ok o
    | Option.none => scanSimple env name
  else
    Outcome.ok obj

/-- The exception class and message an outcome raises, if any. -/
structure PyException where
  kind : String
  msg : String
deriving DecidableEq

/-- Python `repr` of a string, as interpolated by `%r`. -/
def pyrepr (s : String) : String := "'" ++ s ++ "'"

/-- Python `repr` of a list of strings, as interpolated by `%r`. -/
def pyreprList (ss : List String) : String :=
  "[" ++ String.intercalate ", " (ss.map pyrepr) ++ "]"

/-- The exception each outcome raises, one line per `raise` in the source:
all four resolution failures are `ValueError`s distinguished only by their
message. -/
def Outcome.raised : Outcome → Option PyException
  | .ok _ => Option.none
  | .moduleNotFound m =>
      some ⟨"ValueError", "Module " ++ pyrepr m ++ " not found"⟩
  | .missingMember m d =>
      some ⟨"ValueError",
        "Module " ++ pyrepr m ++ " does not have member " ++ pyrepr d⟩
  | .ambiguous mods n =>
      some ⟨"ValueError",
        "Multiple modules (" ++ pyreprList mods ++ ") with declaration name "
          ++ pyrepr n ++ " found, resolution is ambiguous"⟩
  | .notFound n =>
      some ⟨"ValueError", "No module with member " ++ pyrepr n ++ " found"⟩
  | .assertionError => some ⟨"AssertionError", ""⟩
  | .indexError => some ⟨"IndexError", "list index out of range"⟩
  | .attributeError => some ⟨"AttributeError", ""⟩

/-- The four documented resolution failures of `resolve_name`. -/
def Outcome.isResolutionFailure : Outcome → Bool
  | .moduleNotFound _ => true
  | .missingMember _ _ => true
  | .ambiguous _ _ => true
  | .notFound _ => true
  | _ => false

/-! ### Basic lemmas about the registry and the resolver's branches -/

/-- One `alias` call updates exactly the given names, to the given object. -/
theorem alias_fst_apply (names : List String) (obj : Val) (reg : Registry)
    (k : String) :
    («alias» names obj reg).1 k = if k ∈ names then some obj else reg k := by
  induction names generalizing reg with
  | nil => simp [«alias»]
  | cons n ns ih =>
    simp only [«alias», List.foldl_cons] at ih ⊢
    rw [ih (reg.set n obj)]
    by_cases hk : k ∈ ns
    · simp [hk]
    · by_cases hn : k = n <;> simp [hk, hn, Registry.set]

/-- A sequence of `alias` calls realizes exactly the most recent registration
of each name, falling back to the starting registry. -/
theorem aliasMany_apply (rs : List (List String × Val)) (reg : Registry)
    (k : String) :
    (aliasMany rs reg) k =
      match lastRegistered rs k with
      | some v => some v
      | Option.none => reg k := by
  induction rs generalizing reg with
  | nil => simp [aliasMany, lastRegistered]
  | cons p rest ih =>
    simp only [aliasMany, List.foldl_cons] at ih ⊢
    rw [ih («alias» p.1 p.2 reg).1]
    simp only [lastRegistered]
    cases lastRegistered rest k with
    | some v => simp
    | none =>
      rw [alias_fst_apply]
      by_cases hk : k ∈ p.1 <;> simp [hk]

/-- If no later call registers `k`, the sequence leaves `k` untouched. -/
theorem lastRegistered_eq_none (rs : List (List String × Val)) (k : String)
    (h : ∀ p ∈ rs, k ∉ p.1) : lastRegistered rs k = Option.none := by
  induction rs with
  | nil => rfl
  | cons p rest ih =>
    simp only [lastRegistered]
    rw [ih (fun q hq => h q (List.mem_cons_of_mem p hq))]
    simp [h p (List.mem_cons_self p rest)]

/-- A registry hit with a non-`None` value short-circuits `resolve_name`. -/
theorem resolve_name_of_registered (env : Env) (reg : Registry) (name : String)
    (v : Val) (hreg : reg name = some v) (hv : v ≠ Val.none) :
    resolve_name env reg name = Outcome.ok v := by
  simp [resolve_name, hreg, hv]

/-- A registry hit with value `None` fails the assertion. -/
theorem resolve_name_of_registered_none (env : Env) (reg : Registry)
    (name : String) (hreg : reg name = some Val.none) :
    resolve_name env reg name = Outcome.assertionError := by
  simp [resolve_name, hreg]

/-- A character list without a dot does not split. -/
theorem rsplitDotList_eq_none (cs : List Char) (h : '.' ∉ cs) :
    rsplitDotList cs = Option.none := by
  induction cs with
  | nil => rfl
  | cons c cs ih =>
    simp only [List.mem_cons, not_or] at h
    simp [rsplitDotList, ih h.2, Ne.symm h.1]

/-- Splitting happens at the last dot: everything before it is the module
part, everything after it the member part. -/
theorem rsplitDotList_append (pre post : List Char) (h : '.' ∉ post) :
    rsplitDotList (pre ++ '.' :: post) = some (pre, post) := by
  induction pre with
  | nil => simp [rsplitDotList, rsplitDotList_eq_none post h]
  | cons c cs ih => simp [rsplitDotList, ih]

/-- On a registry miss, a dotted name takes the qualified-name branch. -/
theorem resolve_name_qualified (env : Env) (reg : Registry) (name : String)
    (pre post : List Char) (hreg : reg name = Option.none)
    (hname : name.data = pre ++ '.' :: post) (hpost : '.' ∉ post) :
    resolve_name env reg name =
      match env.importModule (String.mk pre) with
      | Option.none => Outcome.moduleNotFound (String.mk pre)
      | some mod =>
        if mod.getattrD (String.mk post) = Val.none then
          Outcome.missingMember (String.mk pre) (String.mk post)
        else Outcome.ok (mod.getattrD (String.mk post)) := by
  simp only [resolve_name, hreg, hname, rsplitDotList_append pre post hpost]
  simp

/-- On a registry miss, a dot-free name takes the heuristic scan. -/
theorem resolve_name_scan (env : Env) (reg : Registry) (name : String)
    (hreg : reg name = Option.none) (hdot : '.' ∉ name.data) :
    resolve_name env reg name = scanSimple env name := by
  simp [resolve_name, hreg, rsplitDotList_eq_none name.data hdot]

/-- `pickObj` never reports the ambiguity error. -/
theorem pickObj_ne_ambiguous (mods : List PyModule) (name : String)
    (L : List String) (n : String) :
    pickObj mods name ≠ Outcome.ambiguous L n := by
  cases mods with
  | nil => simp [pickObj]
  | cons m rest =>
    simp only [pickObj]
    cases m.getattr? name with
    | none => simp
    | some v => by_cases hv : v = Val.none <;> simp [hv]

/-- A module in the candidate list really exposes the name with a truthy
(hence non-`None`) value. -/
theorem getattr_of_candidate (env : Env) (name : String) (m : PyModule)
    (hm : m ∈ candidateMods env name) :
    ∃ v, m.getattr? name = some v ∧ v.isTruthy = true ∧ v ≠ Val.none := by
  have hf := (List.mem_filter.mp hm).2
  cases hl : m.attrs.lookup name with
  | none =>
    rw [PyModule.getattrD, hl] at hf
    simp [Val.isTruthy] at hf
  | some v =>
    refine ⟨v, hl, ?_, ?_⟩
    · rw [PyModule.getattrD, hl] at hf
      exact hf
    · intro hv
      rw [PyModule.getattrD, hl, hv] at hf
      simp [Val.isTruthy] at hf

/-! ### Claims about registration and direct alias lookup -/

/-- An interpreter state with no loaded modules and nothing importable. -/
def envEmpty : Env := ⟨[], fun _ => Option.none, fun _ => Option.none⟩

/-- Claim C1, counterexample to the claim as stated: registering the object
`None` under a name and resolving that name does not return `None`; the
internal assertion fails instead. -/
theorem C1_counterexample :
    resolve_name envEmpty ((«alias» ["n"] Val.none Registry.empty).1) "n" =
      Outcome.assertionError ∧
    resolve_name envEmpty ((«alias» ["n"] Val.none Registry.empty).1) "n" ≠
      Outcome.ok Val.none := by
  decide

/-- Claim C1 (amended: the registered object is not `None`): after
`register({name}, obj)` and any later registrations that avoid `name`,
`resolve(name)` returns the very object `obj`, and `register` returns `obj`
unchanged. -/
theorem C1_roundtrip (env : Env) (reg : Registry) (name : String) (obj : Val)
    (later : List (List String × Val)) (hobj : obj ≠ Val.none)
    (hlater : ∀ p ∈ later, name ∉ p.1) :
    («alias» [name] obj reg).2 = obj ∧
    resolve_name env (aliasMany later ((«alias» [name] obj reg).1)) name =
      Outcome.ok obj := by
  refine ⟨rfl, ?_⟩
  have h1 := aliasMany_apply later ((«alias» [name] obj reg).1) name
  rw [lastRegistered_eq_none later name hlater] at h1
  rw [alias_fst_apply] at h1
  simp only [List.mem_singleton, if_pos rfl] at h1
  exact resolve_name_of_registered env _ name obj h1 hobj

/-- Claim C1, witness: a concrete round trip through a later unrelated
registration. -/
theorem C1_roundtrip_witness :
    («alias» ["relu"] (Val.obj 1 true) Registry.empty).2 = Val.obj 1 true ∧
    resolve_name envEmpty
      (aliasMany [(["gelu"], Val.obj 2 true)]
        ((«alias» ["relu"] (Val.obj 1 true) Registry.empty).1)) "relu" =
      Outcome.ok (Val.obj 1 true) :=
  C1_roundtrip envEmpty Registry.empty "relu" (Val.obj 1 true)
    [(["gelu"], Val.obj 2 true)] (by decide) (by decide)

/-- Claim C3, counterexample to the claim as stated: a name present in the
registry with value `None` does not make `resolve` return the registered
object; the internal assertion fails instead. -/
theorem C3_counterexample :
    resolve_name
      ⟨[], fun _ => some ⟨"a", [("b", Val.obj 9 true)]⟩, fun _ => Option.none⟩
      (Registry.set Registry.empty "a.b" Val.none) "a.b" =
      Outcome.assertionError ∧
    resolve_name
      ⟨[], fun _ => some ⟨"a", [("b", Val.obj 9 true)]⟩, fun _ => Option.none⟩
      (Registry.set Registry.empty "a.b" Val.none) "a.b" ≠
      Outcome.ok Val.none := by
  decide

/-- Claim C3 (amended: the registered value is not `None`): a registry hit is
returned immediately, and the result does not depend on the interpreter state
at all — no import and no module scan is consulted, even for dotted names. -/
theorem C3_registry_precedence (envA envB : Env) (reg : Registry)
    (name : String) (v : Val) (hreg : reg name = some v) (hv : v ≠ Val.none) :
    resolve_name envA reg name = Outcome.ok v ∧
    resolve_name envA reg name = resolve_name envB reg name := by
  have h1 := resolve_name_of_registered envA reg name v hreg hv
  have h2 := resolve_name_of_registered envB reg name v hreg hv
  exact ⟨h1, h1.trans h2.symm⟩

/-- Claim C3, witness: a registered dotted name wins over an interpreter
state whose import would yield a different value. -/
theorem C3_registry_precedence_witness :
    resolve_name
      ⟨[], fun _ => some ⟨"a", [("b", Val.obj 9 true)]⟩, fun _ => Option.none⟩
      (Registry.set Registry.empty "a.b" (Val.obj 3 true)) "a.b" =
      Outcome.ok (Val.obj 3 true) ∧
    resolve_name
      ⟨[], fun _ => some ⟨"a", [("b", Val.obj 9 true)]⟩, fun _ => Option.none⟩
      (Registry.set Registry.empty "a.b" (Val.obj 3 true)) "a.b" =
    resolve_name envEmpty
      (Registry.set Registry.empty "a.b" (Val.obj 3 true)) "a.b" :=
  C3_registry_precedence
    ⟨[], fun _ => some ⟨"a", [("b", Val.obj 9 true)]⟩, fun _ => Option.none⟩
    envEmpty (Registry.set Registry.empty "a.b" (Val.obj 3 true)) "a.b"
    (Val.obj 3 true) (by decide) (by decide)

/-- Claim C7, counterexample to the claim as stated: when the second object
registered under a name is `None`, `resolve` does not return it; the internal
assertion fails instead. -/
theorem C7_counterexample :
    (aliasMany [(["k"], Val.obj 7 true), (["k"], Val.none)] Registry.empty) "k" =
      some Val.none ∧
    resolve_name envEmpty
      (aliasMany [(["k"], Val.obj 7 true), (["k"], Val.none)] Registry.empty)
      "k" = Outcome.assertionError ∧
    resolve_name envEmpty
      (aliasMany [(["k"], Val.obj 7 true), (["k"], Val.none)] Registry.empty)
      "k" ≠ Outcome.ok Val.none := by
  decide

/-- Claim C7 (amended: `resolve` returns the most recent object provided it
is not `None`): after any sequence of registrations, the registry entry of
each name is the most recently registered object under it, and `resolve`
returns that object when it is not `None`. -/
theorem C7_last_registration_wins (env : Env) (reg : Registry)
    (rs : List (List String × Val)) (name : String) (v : Val)
    (hlast : lastRegistered rs name = some v) :
    (aliasMany rs reg) name = some v ∧
    (v ≠ Val.none →
      resolve_name env (aliasMany rs reg) name = Outcome.ok v) := by
  have h := aliasMany_apply rs reg name
  rw [hlast] at h
  exact ⟨h, fun hv => resolve_name_of_registered env _ name v h hv⟩

/-- Claim C7, witness: two successive registrations of the same name; the
second one is what the registry holds and what `resolve` returns. -/
theorem C7_last_registration_wins_witness :
    (aliasMany [(["k"], Val.obj 1 true), (["k"], Val.obj 2 true)]
      Registry.empty) "k" = some (Val.obj 2 true) ∧
    (Val.obj 2 true ≠ Val.none →
      resolve_name envEmpty
        (aliasMany [(["k"], Val.obj 1 true), (["k"], Val.obj 2 true)]
          Registry.empty) "k" = Outcome.ok (Val.obj 2 true)) :=
  C7_last_registration_wins envEmpty Registry.empty
    [(["k"], Val.obj 1 true), (["k"], Val.obj 2 true)] "k" (Val.obj 2 true)
    (by decide)

/-- Claim C8: registering `None` under a name makes `resolve` of that name
fail the internal assertion (an `AssertionError`, not a `ValueError` and not
a returned value). -/
theorem C8_none_assertion (env : Env) (reg : Registry) (names : List String)
    (n : String) (hn : n ∈ names) :
    resolve_name env ((«alias» names Val.none reg).1) n =
      Outcome.assertionError ∧
    (resolve_name env ((«alias» names Val.none reg).1) n).raised =
      some ⟨"AssertionError", ""⟩ := by
  have h : («alias» names Val.none reg).1 n = some Val.none := by
    rw [alias_fst_apply]
    simp [hn]
  rw [resolve_name_of_registered_none env _ n h]
  exact ⟨rfl, rfl⟩

/-- Claim C8, witness: registering `None` under two names and resolving the
second one. -/
theorem C8_none_assertion_witness :
    resolve_name envEmpty ((«alias» ["a", "b"] Val.none Registry.empty).1) "b" =
      Outcome.assertionError ∧
    (resolve_name envEmpty
        ((«alias» ["a", "b"] Val.none Registry.empty).1) "b").raised =
      some ⟨"AssertionError", ""⟩ :=
  C8_none_assertion envEmpty Registry.empty ["a", "b"] "b" (by decide)

/-! ### Claims about the qualified-name branch -/

/-- On a registry miss with a dotted name, an unlocatable module part raises
the module-not-found error. -/
theorem resolve_name_qualified_none (env : Env) (reg : Registry)
    (name : String) (pre post : List Char) (hreg : reg name = Option.none)
    (hname : name.data = pre ++ '.' :: post) (hpost : '.' ∉ post)
    (himp : env.importModule (String.mk pre) = Option.none) :
    resolve_name env reg name = Outcome.moduleNotFound (String.mk pre) := by
  simp [resolve_name, hreg, hname, rsplitDotList_append pre post hpost, himp]

/-- On a registry miss with a dotted name whose module part loads, the result
is decided by the module's attribute of the member part. -/
theorem resolve_name_qualified_some (env : Env) (reg : Registry)
    (name : String) (pre post : List Char) (mod : PyModule)
    (hreg : reg name = Option.none)
    (hname : name.data = pre ++ '.' :: post) (hpost : '.' ∉ post)
    (himp : env.importModule (String.mk pre) = some mod) :
    resolve_name env reg name =
      if mod.getattrD (String.mk post) = Val.none then
        Outcome.missingMember (String.mk pre) (String.mk post)
      else Outcome.ok (mod.getattrD (String.mk post)) := by
  simp only [resolve_name, hreg, hname, rsplitDotList_append pre post hpost,
    himp]
  simp

/-- Claim C2, counterexample to the claim as stated: the module `m` *has* the
member `x` (bound to `None`), yet `resolve("m.x")` raises the missing-member
error, so the error is not equivalent to the member being absent. -/
theorem C2_counterexample :
    (PyModule.getattr? ⟨"m", [("x", Val.none)]⟩ "x").isSome = true ∧
    resolve_name
      ⟨[], fun s => if s = "m" then some ⟨"m", [("x", Val.none)]⟩
                    else Option.none,
       fun _ => Option.none⟩
      Registry.empty "m.x" = Outcome.missingMember "m" "x" := by
  decide

/-- Claim C2 (amended: the missing-member error is raised iff the module's
attribute of the member part is absent *or bound to `None`*): otherwise the
attribute's value is returned. -/
theorem C2_missing_member (env : Env) (reg : Registry) (name : String)
    (pre post : List Char) (mod : PyModule) (hreg : reg name = Option.none)
    (hname : name.data = pre ++ '.' :: post) (hpost : '.' ∉ post)
    (himp : env.importModule (String.mk pre) = some mod) :
    (resolve_name env reg name =
        Outcome.missingMember (String.mk pre) (String.mk post) ↔
      mod.getattrD (String.mk post) = Val.none) ∧
    (∀ v, mod.getattrD (String.mk post) = v → v ≠ Val.none →
      resolve_name env reg name = Outcome.ok v) := by
  have h := resolve_name_qualified_some env reg name pre post mod hreg hname
    hpost himp
  constructor
  · constructor
    · intro hres
      by_contra hm
      rw [h, if_neg hm] at hres
      exact absurd hres (by simp)
    · intro hm
      rw [h, if_pos hm]
  · intro v hv hvn
    rw [h, hv, if_neg hvn]

/-- Claim C2, witness: resolving `"m.x"` where module `m` binds `x` to a
non-`None` object returns that object and is not the missing-member error. -/
theorem C2_missing_member_witness :
    (resolve_name
        ⟨[], fun s => if s = "m" then some ⟨"m", [("x", Val.obj 4 true)]⟩
                      else Option.none,
         fun _ => Option.none⟩
        Registry.empty "m.x" =
        Outcome.missingMember (String.mk ['m']) (String.mk ['x']) ↔
      PyModule.getattrD ⟨"m", [("x", Val.obj 4 true)]⟩ (String.mk ['x']) =
        Val.none) ∧
    (∀ v, PyModule.getattrD ⟨"m", [("x", Val.obj 4 true)]⟩
        (String.mk ['x']) = v → v ≠ Val.none →
      resolve_name
        ⟨[], fun s => if s = "m" then some ⟨"m", [("x", Val.obj 4 true)]⟩
                      else Option.none,
         fun _ => Option.none⟩
        Registry.empty "m.x" = Outcome.ok v) :=
  C2_missing_member
    ⟨[], fun s => if s = "m" then some ⟨"m", [("x", Val.obj 4 true)]⟩
                  else Option.none,
     fun _ => Option.none⟩
    Registry.empty "m.x" ['m'] ['x'] ⟨"m", [("x", Val.obj 4 true)]⟩
    (by decide) (by decide) (by decide) (by decide)

/-- Claim C6: an unregistered dotted name is split at its last dot into a
module part and a member part; the module-not-found error is raised exactly
when the module part does not load, and a loaded module hands control to the
member lookup on the member part. -/
theorem C6_qualified_split (env : Env) (reg : Registry) (name : String)
    (pre post : List Char) (hreg : reg name = Option.none)
    (hname : name.data = pre ++ '.' :: post) (hpost : '.' ∉ post) :
    (resolve_name env reg name = Outcome.moduleNotFound (String.mk pre) ↔
      env.importModule (String.mk pre) = Option.none) ∧
    (∀ mod, env.importModule (String.mk pre) = some mod →
      resolve_name env reg name =
        if mod.getattrD (String.mk post) = Val.none then
          Outcome.missingMember (String.mk pre) (String.mk post)
        else Outcome.ok (mod.getattrD (String.mk post))) := by
  constructor
  · constructor
    · intro hres
      cases himp : env.importModule (String.mk pre) with
      | none => rfl
      | some mod =>
        rw [resolve_name_qualified_some env reg name pre post mod hreg hname
          hpost himp] at hres
        split at hres <;> simp_all
    · intro himp
      exact resolve_name_qualified_none env reg name pre post hreg hname hpost
        himp
  · intro mod himp
    exact resolve_name_qualified_some env reg name pre post mod hreg hname
      hpost himp

/-- Claim C6, witness: `"a.b"` splits into module part `"a"` and member part
`"b"`; with nothing importable the module-not-found error is raised. -/
theorem C6_qualified_split_witness :
    (resolve_name envEmpty Registry.empty "a.b" =
        Outcome.moduleNotFound (String.mk ['a']) ↔
      envEmpty.importModule (String.mk ['a']) = Option.none) ∧
    (∀ mod, envEmpty.importModule (String.mk ['a']) = some mod →
      resolve_name envEmpty Registry.empty "a.b" =
        if mod.getattrD (String.mk ['b']) = Val.none then
          Outcome.missingMember (String.mk ['a']) (String.mk ['b'])
        else Outcome.ok (mod.getattrD (String.mk ['b']))) :=
  C6_qualified_split envEmpty Registry.empty "a.b" ['a'] ['b'] (by decide)
    (by decide) (by decide)

/-! ### Claims about the heuristic scan over loaded modules -/

/-- With no candidate module, the scan raises the not-found error. -/
theorem scanSimple_of_empty (env : Env) (name : String)
    (h : candidateMods env name = []) :
    scanSimple env name = Outcome.notFound name := by
  simp [scanSimple, h]

/-- With exactly one candidate module, the scan reads its attribute. -/
theorem scanSimple_of_single (env : Env) (name : String) (m : PyModule)
    (h : candidateMods env name = [m]) :
    scanSimple env name = pickObj [m] name := by
  simp [scanSimple, h]

/-- With several candidates, the scan deduplicates by defining module,
raising the ambiguity error when more than one remains. -/
theorem scanSimple_of_multi (env : Env) (name : String)
    (h1 : 1 < (candidateMods env name).length) :
    scanSimple env name =
      if 1 < (definingMods env name (candidateMods env name)).length then
        Outcome.ambiguous
          ((definingMods env name (candidateMods env name)).map PyModule.name)
          name
      else pickObj (definingMods env name (candidateMods env name)) name := by
  have h0 : 0 < (candidateMods env name).length :=
    Nat.lt_trans Nat.zero_lt_one h1
  simp [scanSimple, h0, h1]

/-- Two loaded modules `B` and `C` exposing `X`, whose values were both
defined in module `A`, which itself binds `X` to a non-`None` object: a
re-export situation that dedups to the single defining module `A`. -/
def envReexport : Env :=
  ⟨[⟨"B", [("X", Val.obj 1 true)]⟩, ⟨"C", [("X", Val.obj 2 true)]⟩],
   fun _ => Option.none,
   fun v => if v = Val.obj 1 true ∨ v = Val.obj 2 true then
              some ⟨"A", [("X", Val.obj 9 true)]⟩
            else Option.none⟩

/-- Like `envReexport`, except the two candidates' values were defined in two
distinct modules `A` and `D`: a genuine ambiguity. -/
def envTwoDefiners : Env :=
  ⟨[⟨"B", [("X", Val.obj 1 true)]⟩, ⟨"C", [("X", Val.obj 2 true)]⟩],
   fun _ => Option.none,
   fun v => if v = Val.obj 1 true then some ⟨"A", [("X", Val.obj 9 true)]⟩
            else if v = Val.obj 2 true then some ⟨"D", [("X", Val.obj 8 true)]⟩
            else Option.none⟩

/-- Like `envReexport`, except the defining module `A` does not itself bind
the name `X` at all (the value was imported under a different name). -/
def envSharedMissingAttr : Env :=
  ⟨[⟨"B", [("X", Val.obj 1 true)]⟩, ⟨"C", [("X", Val.obj 2 true)]⟩],
   fun _ => Option.none,
   fun v => if v = Val.obj 1 true ∨ v = Val.obj 2 true then some ⟨"A", []⟩
            else Option.none⟩

/-- Like `envReexport`, except the defining module `A` binds `X` to `None`. -/
def envSharedNoneAttr : Env :=
  ⟨[⟨"B", [("X", Val.obj 1 true)]⟩, ⟨"C", [("X", Val.obj 2 true)]⟩],
   fun _ => Option.none,
   fun v => if v = Val.obj 1 true ∨ v = Val.obj 2 true then
              some ⟨"A", [("X", Val.none)]⟩
            else Option.none⟩

/-- Like `envReexport`, except no candidate's defining module can be
determined (`inspect.getmodule` returns `None` for both values). -/
def envNoDefiners : Env :=
  ⟨[⟨"B", [("X", Val.obj 1 true)]⟩, ⟨"C", [("X", Val.obj 2 true)]⟩],
   fun _ => Option.none, fun _ => Option.none⟩

/-- Claim C4, counterexample to the claim as stated: two candidates dedup to
exactly one defining module `A`, but `A` does not itself bind the name, so
`resolve` does not return an attribute of `A` without error — the bare
`getattr` on `A` fails (`AttributeError`). -/
theorem C4_counterexample :
    1 < (candidateMods envSharedMissingAttr "X").length ∧
    definingMods envSharedMissingAttr "X"
      (candidateMods envSharedMissingAttr "X") = [⟨"A", []⟩] ∧
    resolve_name envSharedMissingAttr Registry.empty "X" =
      Outcome.attributeError ∧
    (resolve_name envSharedMissingAttr Registry.empty "X").raised =
      some ⟨"AttributeError", ""⟩ := by
  decide

/-- Claim C4 (amended: when exactly one defining module remains, the returned
value is that module's own attribute, provided the module binds the name to a
non-`None` value): with several candidates, the ambiguity error is raised iff
more than one distinct defining module remains after deduplication. -/
theorem C4_ambiguity_dedup (env : Env) (reg : Registry) (name : String)
    (hreg : reg name = Option.none) (hdot : '.' ∉ name.data)
    (hlen : 1 < (candidateMods env name).length) :
    (1 < (definingMods env name (candidateMods env name)).length →
      resolve_name env reg name =
        Outcome.ambiguous
          ((definingMods env name (candidateMods env name)).map PyModule.name)
          name) ∧
    (∀ L n2, resolve_name env reg name = Outcome.ambiguous L n2 →
      1 < (definingMods env name (candidateMods env name)).length) ∧
    (∀ A v, definingMods env name (candidateMods env name) = [A] →
      A.getattr? name = some v → v ≠ Val.none →
      resolve_name env reg name = Outcome.ok v) := by
  have hs := resolve_name_scan env reg name hreg hdot
  have hm := scanSimple_of_multi env name hlen
  refine ⟨?_, ?_, ?_⟩
  · intro hfm
    rw [hs, hm, if_pos hfm]
  · intro L n2 hres
    by_contra hfm
    rw [hs, hm, if_neg hfm] at hres
    exact pickObj_ne_ambiguous _ _ L n2 hres
  · intro A v hA hv hvn
    have hfm : ¬ 1 < (definingMods env name (candidateMods env name)).length := by
      rw [hA]
      simp
    rw [hs, hm, if_neg hfm, hA]
    simp [pickObj, hv, hvn]

/-- Claim C4, witness: with two genuinely distinct defining modules the
ambiguity error names both of them; in the re-export collapse the defining
module's own value is returned. -/
theorem C4_ambiguity_dedup_witness :
    (1 < (definingMods envTwoDefiners "X"
        (candidateMods envTwoDefiners "X")).length →
      resolve_name envTwoDefiners Registry.empty "X" =
        Outcome.ambiguous
          ((definingMods envTwoDefiners "X"
            (candidateMods envTwoDefiners "X")).map PyModule.name) "X") ∧
    (∀ L n2, resolve_name envTwoDefiners Registry.empty "X" =
        Outcome.ambiguous L n2 →
      1 < (definingMods envTwoDefiners "X"
        (candidateMods envTwoDefiners "X")).length) ∧
    (∀ A v, definingMods envTwoDefiners "X"
        (candidateMods envTwoDefiners "X") = [A] →
      A.getattr? "X" = some v → v ≠ Val.none →
      resolve_name envTwoDefiners Registry.empty "X" = Outcome.ok v) :=
  C4_ambiguity_dedup envTwoDefiners Registry.empty "X" (by decide) (by decide)
    (by decide)

/-- Claim C5, counterexample to the claim as stated: both loaded modules are
candidates (the candidate set is nonempty), yet the not-found error is raised,
because deduplication collapsed to the defining module `A` whose own binding
of `X` is `None`. -/
theorem C5_counterexample :
    (candidateMods envSharedNoneAttr "X").length = 2 ∧
    resolve_name envSharedNoneAttr Registry.empty "X" =
      Outcome.notFound "X" := by
  decide

/-- Claim C5 (amended: the not-found error is raised whenever the candidate
set is empty, and conversely only when it is empty or the multi-candidate
dedup collapsed to a single defining module whose own attribute of the name
is `None`): a module is a candidate exactly when it is loaded and its
attribute of the name is present and truthy. -/
theorem C5_notfound_criterion (env : Env) (reg : Registry) (name : String)
    (hreg : reg name = Option.none) (hdot : '.' ∉ name.data) :
    (∀ m, m ∈ candidateMods env name ↔
      m ∈ env.sysModules ∧ (m.getattrD name).isTruthy = true) ∧
    (candidateMods env name = [] →
      resolve_name env reg name = Outcome.notFound name) ∧
    (resolve_name env reg name = Outcome.notFound name →
      candidateMods env name = [] ∨
      ∃ A, definingMods env name (candidateMods env name) = [A] ∧
        A.getattr? name = some Val.none) := by
  have hs := resolve_name_scan env reg name hreg hdot
  refine ⟨?_, ?_, ?_⟩
  · intro m
    simp [candidateMods, List.mem_filter]
  · intro h
    rw [hs, scanSimple_of_empty env name h]
  · intro hres
    cases hmods : candidateMods env name with
    | nil => exact Or.inl rfl
    | cons m rest =>
      cases rest with
      | nil =>
        rw [hs, scanSimple_of_single env name m hmods] at hres
        obtain ⟨v, hv, htr, hvn⟩ := getattr_of_candidate env name m
          (by rw [hmods]; exact List.mem_singleton_self m)
        simp [pickObj, hv, hvn] at hres
      | cons m2 rest2 =>
        have hlen : 1 < (candidateMods env name).length := by
          rw [hmods]
          simp [List.length_cons]
        rw [hs, scanSimple_of_multi env name hlen] at hres
        by_cases hfm :
            1 < (definingMods env name (candidateMods env name)).length
        · rw [if_pos hfm] at hres
          exact absurd hres (by simp)
        · rw [if_neg hfm] at hres
          cases hfmv : definingMods env name (candidateMods env name) with
          | nil =>
            rw [hfmv] at hres
            simp [pickObj] at hres
          | cons A tail =>
            cases tail with
            | nil =>
              rw [hfmv] at hres
              have hga2 : A.getattr? name = some Val.none := by
                cases hga : A.getattr? name with
                | none => simp [pickObj, hga] at hres
                | some v =>
                  by_cases hvn : v = Val.none
                  · rw [hvn]
                  · simp [pickObj, hga, hvn] at hres
              refine Or.inr ⟨A, ?_, hga2⟩
              rw [← hmods]
              exact hfmv
            | cons B tail2 =>
              rw [hfmv] at hfm
              exact absurd (by simp [List.length_cons] : 1 <
                (A :: B :: tail2).length) hfm

/-- Claim C5, witness: with nothing loaded, the candidate set is empty and
resolving an unknown bare name raises the not-found error. -/
theorem C5_notfound_criterion_witness :
    (∀ m, m ∈ candidateMods envEmpty "Nope" ↔
      m ∈ envEmpty.sysModules ∧ (m.getattrD "Nope").isTruthy = true) ∧
    (candidateMods envEmpty "Nope" = [] →
      resolve_name envEmpty Registry.empty "Nope" = Outcome.notFound "Nope") ∧
    (resolve_name envEmpty Registry.empty "Nope" = Outcome.notFound "Nope" →
      candidateMods envEmpty "Nope" = [] ∨
      ∃ A, definingMods envEmpty "Nope" (candidateMods envEmpty "Nope") = [A] ∧
        A.getattr? "Nope" = some Val.none) :=
  C5_notfound_criterion envEmpty Registry.empty "Nope" (by decide) (by decide)

/-- Claim C9: when several candidates expose the name but no candidate's
defining module can be determined, deduplication empties the list and the
`mods[0]` access raises `IndexError` rather than the not-found error. -/
theorem C9_index_error (env : Env) (reg : Registry) (name : String)
    (hreg : reg name = Option.none) (hdot : '.' ∉ name.data)
    (hlen : 1 < (candidateMods env name).length)
    (hfm : definingMods env name (candidateMods env name) = []) :
    resolve_name env reg name = Outcome.indexError ∧
    (resolve_name env reg name).raised =
      some ⟨"IndexError", "list index out of range"⟩ ∧
    resolve_name env reg name ≠ Outcome.notFound name := by
  rw [resolve_name_scan env reg name hreg hdot,
    scanSimple_of_multi env name hlen, hfm]
  simp [pickObj, Outcome.raised]

/-- Claim C9, witness: two modules expose `X` but `inspect.getmodule` fails
on both values. -/
theorem C9_index_error_witness :
    resolve_name envNoDefiners Registry.empty "X" = Outcome.indexError ∧
    (resolve_name envNoDefiners Registry.empty "X").raised =
      some ⟨"IndexError", "list index out of range"⟩ ∧
    resolve_name envNoDefiners Registry.empty "X" ≠ Outcome.notFound "X" :=
  C9_index_error envNoDefiners Registry.empty "X" (by decide) (by decide)
    (by decide) (by decide)

/-! ### Claim about the exception surface -/

/-- Claim C10: every one of the four resolution failures is raised as a
`ValueError`; only the message differs between the kinds. -/
theorem C10_all_value_errors (env : Env) (reg : Registry) (name : String)
    (h : (resolve_name env reg name).isResolutionFailure = true) :
    ∃ e, (resolve_name env reg name).raised = some e ∧
      e.kind = "ValueError" := by
  cases hres : resolve_name env reg name <;> rw [hres] at h <;>
    simp [Outcome.isResolutionFailure] at h <;>
    exact ⟨_, rfl, rfl⟩

/-- Claim C10, witness: the module-not-found failure surfaces as a
`ValueError`. -/
theorem C10_all_value_errors_witness :
    ∃ e, (resolve_name envEmpty Registry.empty "a.b").raised = some e ∧
      e.kind = "ValueError" :=
  C10_all_value_errors envEmpty Registry.empty "a.b" (by decide)
